import Mathlib

/-!
Verification of the pbrtapi scene-text rewrite pipeline.

The JavaScript source works on raw strings with regular expressions.  We give a
shallow embedding: strings are lists of characters (`Str`), each regular
expression of the source is translated into an explicit, executable scanner
with exactly the backtracking order of the JavaScript engine (greedy `\s*`
tried longest first, lazy `(?:[^\n]*\n)+?` tried with the fewest iterations
first, alternatives in written order, leftmost match wins), and each handler
is translated into a pure function over these strings.  Identifier renaming
(the namespace rewriter of `GET /v1/convert/:uuid`) is embedded over a
structured document type whose constructors correspond to the directive forms
the source's regexes single out.  Filesystem state (texture directories, the
render cache) is passed explicitly; `console.warn` reports are returned as
explicit lists.
-/

set_option maxRecDepth 10000

/-- Scene text, modelled as a list of characters. -/
abbrev Str := List Char

/-- JavaScript `\s` on the characters that occur in scene text:
space, tab, newline, carriage return. -/
def wsChar (c : Char) : Bool :=
  c = ' ' || c = '\t' || c = '\n' || c = '\r'

/-- JavaScript `\d`. -/
def digitChar (c : Char) : Bool :=
  '0' ≤ c && c ≤ '9'

/-- The character class `[a-f0-9-]` of the model-uuid regexes. -/
def hexDashChar (c : Char) : Bool :=
  ('a' ≤ c && c ≤ 'f') || digitChar c || c = '-'

/-- Boolean string-prefix test (`String.prototype.startsWith`). -/
def isPrefixB : Str → Str → Bool
  | [], _ => true
  | _ :: _, [] => false
  | a :: as, b :: bs => a = b && isPrefixB as bs

/-- Boolean substring test (`String.prototype.includes`). -/
def infixB (p : Str) : Str → Bool
  | [] => isPrefixB p []
  | c :: rest => isPrefixB p (c :: rest) || infixB p (rest)

/-- Strip a literal prefix, returning the remainder on success. -/
def stripPre (pat s : Str) : Option Str :=
  if isPrefixB pat s then some (s.drop pat.length) else none

/-- Longest whitespace prefix and the remainder (greedy `\s*`). -/
def spanWs (s : Str) : Str × Str :=
  (s.takeWhile wsChar, s.dropWhile wsChar)

/-- One iteration of `[^\n]*\n`: everything up to and including the first
newline; `none` when the text has no newline left. -/
def splitLine : Str → Option (Str × Str)
  | [] => none
  | c :: rest =>
    if c = '\n' then some ([c], rest)
    else match splitLine rest with
      | some (l, r) => some (c :: l, r)
      | none => none

/-- Replace the first occurrence of `pat` (nonempty) in `s` by `repl`,
like `String.prototype.replace` with a string pattern. -/
def replaceFirst (s pat repl : Str) : Str :=
  match s with
  | [] => []
  | c :: rest =>
    if isPrefixB pat s ∧ pat ≠ [] then repl ++ s.drop pat.length
    else c :: replaceFirst rest pat repl

/-- Fuel-driven scan for `replaceAllLit`; the fuel bounds the number of
characters still to be inspected. -/
def replaceAllGo : Nat → Str → Str → Str → Str
  | 0, s, _, _ => s
  | fuel + 1, s, pat, repl =>
    match pat, s with
    | [], _ => s
    | _ :: _, [] => []
    | q :: qs, c :: rest =>
      if isPrefixB (q :: qs) (c :: rest) then
        repl ++ replaceAllGo fuel (rest.drop qs.length) (q :: qs) repl
      else c :: replaceAllGo fuel rest (q :: qs) repl

/-- Replace every occurrence of `pat` (nonempty) in `s` by `repl`, scanning
left to right without rescanning replacements (a `/…/g` string replace). -/
def replaceAllLit (s pat repl : Str) : Str :=
  replaceAllGo (s.length + 1) s pat repl

/-- Decimal digit value of a digit character. -/
def digitVal (c : Char) : Nat := c.toNat - '0'.toNat

/-- Numeric value of a digit string (`parseInt` on an all-digit match). -/
def natOfDigits (s : Str) : Nat :=
  s.foldl (fun acc c => 10 * acc + digitVal c) 0

/-- Decimal rendering of a natural number (JavaScript number-to-string
interpolation for the integer indices of the source). -/
def digitsOf (n : Nat) : Str := Nat.toDigits 10 n

/-! ### String literals of the source -/

def kwAttributeBegin : Str := ['A', 't', 't', 'r', 'i', 'b', 'u', 't', 'e', 'B', 'e', 'g', 'i', 'n']

def kwAttributeEnd : Str := ['A', 't', 't', 'r', 'i', 'b', 'u', 't', 'e', 'E', 'n', 'd']

def kwShape : Str := ['S', 'h', 'a', 'p', 'e']

def kwMaterial : Str := ['M', 'a', 't', 'e', 'r', 'i', 'a', 'l']

def kwNamedMaterial : Str := ['N', 'a', 'm', 'e', 'd', 'M', 'a', 't', 'e', 'r', 'i', 'a', 'l']

def kwLightSource : Str := ['L', 'i', 'g', 'h', 't', 'S', 'o', 'u', 'r', 'c', 'e']

def kwCoordSysTransform : Str := ['C', 'o', 'o', 'r', 'd', 'S', 'y', 's', 'T', 'r', 'a', 'n', 's', 'f', 'o', 'r', 'm']

def kwTranslate : Str := ['T', 'r', 'a', 'n', 's', 'l', 'a', 't', 'e']

def kwRotate : Str := ['R', 'o', 't', 'a', 't', 'e']

def kwScale : Str := ['S', 'c', 'a', 'l', 'e']

def adjacencyLit : Str := ['A', 't', 't', 'r', 'i', 'b', 'u', 't', 'e', 'E', 'n', 'd', 'A', 't', 't', 'r', 'i', 'b', 'u', 't', 'e', 'B', 'e', 'g', 'i', 'n']

def adjacencyFix : Str := ['A', 't', 't', 'r', 'i', 'b', 'u', 't', 'e', 'E', 'n', 'd', '\n', 'A', 't', 't', 'r', 'i', 'b', 'u', 't', 'e', 'B', 'e', 'g', 'i', 'n']

def optOutMarker : Str := ['#', '[', 'n', 'o', '-', 'm', 'o', 'r', 'e', '-', 't', 'r', 'a', 'n', 's', 'f', 'o', 'r', 'm', 'a', 't', 'i', 'o', 'n', ']']

def filenameParamLit : Str := ['"', 's', 't', 'r', 'i', 'n', 'g', ' ', 'f', 'i', 'l', 'e', 'n', 'a', 'm', 'e', '"']

def bareFilenameLit : Str := ['"', 'f', 'i', 'l', 'e', 'n', 'a', 'm', 'e', '"']

def suspDotDot : Str := ['"', '.', '.', '/']

def suspTilde : Str := ['"', '~', '/']

def suspEtc : Str := ['"', '/', 'e', 't', 'c', '/']

def suspVar : Str := ['"', '/', 'v', 'a', 'r', '/']

def suspBackslash : Str := ['"', '\\', '\\']

def uploadsAbsPrefix : Str := ['/', 'h', 'o', 'm', 'e', '/', 'p', 'o', 'g', '/', 'p', 'b', 'r', 't', 'a', 'p', 'i', '/', 'u', 'p', 'l', 'o', 'a', 'd', 's', '/']

def modelsAbsPrefix : Str := ['/', 'h', 'o', 'm', 'e', '/', 'p', 'o', 'g', '/', 'p', 'b', 'r', 't', 'a', 'p', 'i', '/', 'u', 'p', 'l', 'o', 'a', 'd', 's', '/', 'm', 'o', 'd', 'e', 'l', 's', '/']

def modelsRelPrefix : Str := ['m', 'o', 'd', 'e', 'l', 's', '/']

def texturesSeg : Str := ['/', 't', 'e', 'x', 't', 'u', 'r', 'e', 's', '/']

def texturesStarSeg : Str := ['/', 't', 'e', 'x', 't', 'u', 'r', 'e', 's', '/', '*']

def rgbPrefix : Str := ['r', 'g', 'b', ':']

def nonameMaterial : Str := ['n', 'o', 'n', 'a', 'm', 'e', '_', 'm', 'a', 't', 'e', 'r', 'i', 'a', 'l']

def extPng : Str := ['p', 'n', 'g']

def extJpg : Str := ['j', 'p', 'g']

def extGif : Str := ['g', 'i', 'f']

def extBmp : Str := ['b', 'm', 'p']

def extWebp : Str := ['w', 'e', 'b', 'p']

def extTiff : Str := ['t', 'i', 'f', 'f']

def hdrApplied : Str := ['#', ' ', 'T', 'r', 'a', 'n', 's', 'f', 'o', 'r', 'm', ' ', 'a', 'p', 'p', 'l', 'i', 'e', 'd', ' ', 'o', 'n', ' ']

def hdrParamsLine : Str := ['#', ' ', 'P', 'a', 'r', 'a', 'm', 'e', 't', 'e', 'r', 's', ':']

def hdrTranslateOpen : Str := ['#', ' ', '-', ' ', 'T', 'r', 'a', 'n', 's', 'l', 'a', 't', 'e', ':', ' ', '[']

def hdrTranslateNone : Str := ['#', ' ', '-', ' ', 'T', 'r', 'a', 'n', 's', 'l', 'a', 't', 'e', ':', ' ', 'n', 'o', 'n', 'e']

def hdrRotateOpen : Str := ['#', ' ', '-', ' ', 'R', 'o', 't', 'a', 't', 'e', ':', ' ', '[']

def hdrRotateNone : Str := ['#', ' ', '-', ' ', 'R', 'o', 't', 'a', 't', 'e', ':', ' ', 'n', 'o', 'n', 'e']

def hdrScaleOpen : Str := ['#', ' ', '-', ' ', 'S', 'c', 'a', 'l', 'e', ':', ' ', '[']

def hdrScaleNone : Str := ['#', ' ', '-', ' ', 'S', 'c', 'a', 'l', 'e', ':', ' ', 'n', 'o', 'n', 'e']

def commaSpace : Str := [',', ' ']

def cmdIndent : Str := [' ', ' ']


/-! ### PathSanitizer (`hasSuspiciousPbrtPaths`, `sanitizePbrtPaths`) -/

/-- One position of the suspicious-path scan: the five patterns of
`hasSuspiciousPbrtPaths` all start with the literal `"filename"` followed by
`\s+`; after that they require `"../`, `"~/`, `"/etc/`, `"/var/` or `"\\`
(source part_003 lines 2012-2024). -/
def suspiciousAt (s : Str) : Bool :=
  match stripPre bareFilenameLit s with
  | none => false
  | some r =>
    let w := (spanWs r).1
    let r1 := (spanWs r).2
    w ≠ [] && (isPrefixB suspDotDot r1 || isPrefixB suspTilde r1 ||
      isPrefixB suspEtc r1 || isPrefixB suspVar r1 || isPrefixB suspBackslash r1)

/-- `hasSuspiciousPbrtPaths(content)`: some pattern of the list matches
somewhere in the content. -/
def hasSuspiciousPbrtPaths (content : Str) : Bool :=
  match content with
  | [] => false
  | _ :: rest => suspiciousAt content || hasSuspiciousPbrtPaths rest

/-- Outcome of the security gate of the `POST /v1/debug/render` handler
(part_003 lines 359-363 and 425-428): a suspicious content is answered with
HTTP 403 before any further processing, otherwise the handler proceeds. -/
inductive RenderDecision
  | reject
  | proceed
deriving DecidableEq

def debugRenderCheck (content : Str) : RenderDecision :=
  if hasSuspiciousPbrtPaths content then .reject else .proceed

/-- The absolute model-texture placeholder
`/home/pog/pbrtapi/uploads/models/([a-f0-9-]+)/textures/\*(\d+)` at the head
of `s`: returns (consumed length, model id, digit string). -/
def tryAbsPlaceholder (s : Str) : Option (Nat × Str × Str) :=
  match stripPre modelsAbsPrefix s with
  | none => none
  | some r =>
    let u := r.takeWhile hexDashChar
    if u = [] then none
    else match stripPre texturesStarSeg (r.drop u.length) with
      | none => none
      | some r2 =>
        let ds := r2.takeWhile digitChar
        if ds = [] then none
        else some (modelsAbsPrefix.length + u.length + texturesStarSeg.length + ds.length, u, ds)

/-- First replacement pass of `sanitizePbrtPaths` (part_003 lines 2035-2044):
every absolute model-texture placeholder becomes `models/<id>/textures/*<n>`
when `useRel` is set, and is kept verbatim otherwise. -/
def sanitizeAbsPass : Nat → Bool → Str → Str
  | 0, _, s => s
  | _ + 1, _, [] => []
  | fuel + 1, useRel, c :: rest =>
    match tryAbsPlaceholder (c :: rest) with
    | some (len, u, ds) =>
      (if useRel then modelsRelPrefix ++ u ++ texturesStarSeg ++ ds
       else (c :: rest).take len) ++ sanitizeAbsPass fuel useRel ((c :: rest).drop len)
    | none => c :: sanitizeAbsPass fuel useRel rest

/-- The parameter form `"string filename"\s+"([^"]+)"` at the head of `s`:
returns (consumed length, filename). -/
def tryFilenameParam (s : Str) : Option (Nat × Str) :=
  match stripPre filenameParamLit s with
  | none => none
  | some r =>
    let w := (spanWs r).1
    if w = [] then none
    else match (spanWs r).2 with
      | '"' :: r2 =>
        let f := r2.takeWhile (fun c => c ≠ '"')
        if f = [] then none
        else match r2.drop f.length with
          | '"' :: _ => some (filenameParamLit.length + w.length + 1 + f.length + 1, f)
          | _ => none
      | _ => none

/-- `path.join` as used by the absolute-output branch of `sanitizePbrtPaths`,
modelled for arguments without dot-segments: concatenation with a slash. -/
def pathJoin (a b : Str) : Str := a ++ '/' :: b

/-- The replacement callback of the second pass of `sanitizePbrtPaths`
(part_003 lines 2049-2069), given the filename `f` and the original matched
text `origMatch`. -/
def filenameReplacement (baseDir : Str) (useRel : Bool) (f origMatch : Str) : Str :=
  if ¬ isPrefixB ['/'] f then
    if useRel then
      filenameParamLit ++ [' ', '"'] ++ f.map (fun c => if c = '\\' then '/' else c) ++ ['"']
    else
      filenameParamLit ++ [' ', '"'] ++ (pathJoin baseDir f).map (fun c => if c = '\\' then '/' else c) ++ ['"']
  else if useRel ∧ isPrefixB modelsAbsPrefix f then
    filenameParamLit ++ [' ', '"'] ++ replaceFirst f uploadsAbsPrefix [] ++ ['"']
  else origMatch

/-- Second replacement pass of `sanitizePbrtPaths`: rewrite every
`"string filename" "<path>"` parameter through `filenameReplacement`. -/
def sanitizeParamPass : Nat → Str → Bool → Str → Str
  | 0, _, _, s => s
  | _ + 1, _, _, [] => []
  | fuel + 1, baseDir, useRel, c :: rest =>
    match tryFilenameParam (c :: rest) with
    | some (len, f) =>
      filenameReplacement baseDir useRel f ((c :: rest).take len) ++
        sanitizeParamPass fuel baseDir useRel ((c :: rest).drop len)
    | none => c :: sanitizeParamPass fuel baseDir useRel rest

/-- `sanitizePbrtPaths(content, baseDir, useRelativePath)` of the source:
the absolute-placeholder pass followed by the filename-parameter pass. -/
def sanitizePbrtPaths (content baseDir : Str) (useRel : Bool) : Str :=
  let a := sanitizeAbsPass (content.length + 1) useRel content
  sanitizeParamPass (a.length + 1) baseDir useRel a

/-! ### NamespaceRewriter (`GET /v1/convert/:uuid`, part_003 lines 1499-1690)

The renaming step works on the part of `nono.pbrt` after the `# Textures`
marker.  Its regexes single out four directive forms: texture definitions
`Texture "<name>" "<class>" "<kind>"`, texture references
`"texture <slot>" "<name>"`, material definitions
`MakeNamedMaterial "<name>"` and material references
`NamedMaterial "<name>"`.  We embed the document as a list of such
directives; text the rewriter never touches is `other`. -/

inductive Directive
  | textureDef (name cls kind : Str)
  | textureRef (slot name : Str)
  | materialDef (name : Str)
  | materialRef (name : Str)
  | other (s : Str)
deriving DecidableEq

abbrev Doc := List Directive

def texDefNames (d : Doc) : List Str :=
  d.filterMap fun x => match x with
    | .textureDef n _ _ => some n
    | _ => none

def matDefNames (d : Doc) : List Str :=
  d.filterMap fun x => match x with
    | .materialDef n => some n
    | _ => none

/-- Number of anonymous material definitions (`MakeNamedMaterial ""`),
collected by the loop at part_003 lines 1572-1579. -/
def emptyMatCount (d : Doc) : Nat :=
  (matDefNames d).countP (fun n => n = [])

/-- New texture name (part_003 lines 1527-1529): names starting with `rgb:`
keep that tag and get the prefix after it, all others are prefixed
directly. -/
def texNewName (p n : Str) : Str :=
  if isPrefixB rgbPrefix n then rgbPrefix ++ p ++ n.drop 4 else p ++ n

/-- The texture rename map (part_003 lines 1521-1532): a definition name is
mapped unless it already contains the prefix (`originalName.includes(prefix)`).
Duplicate keys carry equal values, so first-match lookup coincides with the
source's `Map`. -/
def texMap (p : Str) (d : Doc) : List (Str × Str) :=
  (texDefNames d).filterMap fun n =>
    if infixB p n then none else some (n, texNewName p n)

/-- A named definition is skipped by the loop at lines 1602-1614 when its
name is empty (already handled above) or already contains the prefix. -/
def matSkip (p n : Str) : Bool := n = [] || infixB p n

/-- The material rename map (part_003 lines 1588-1614): the single anonymous
definition (when there is exactly one) gets `<prefix>noname_material`; a named
definition is mapped unless it already contains the prefix. -/
def matMap (p : Str) (d : Doc) : List (Str × Str) :=
  (if emptyMatCount d = 1 then [([], p ++ nonameMaterial)] else []) ++
    ((matDefNames d).filterMap fun n =>
      if matSkip p n then none else some (n, p ++ n))

def lookupS : List (Str × Str) → Str → Option Str
  | [], _ => none
  | (k, v) :: r, n => if k = n then some v else lookupS r n

def renName (m : List (Str × Str)) (n : Str) : Str :=
  (lookupS m n).getD n

/-- Apply both rename maps to one directive: definitions and references are
rewritten consistently (part_003 lines 1625-1654). -/
def applyRen (tm mm : List (Str × Str)) : Directive → Directive
  | .textureDef n c k => .textureDef (renName tm n) c k
  | .textureRef slot n => .textureRef slot (renName tm n)
  | .materialDef n => .materialDef (renName mm n)
  | .materialRef n => .materialRef (renName mm n)
  | .other s => .other s

inductive RewriteError
  | ambiguousRename
deriving DecidableEq

/-- The namespace-rewriting step: with two or more anonymous material
definitions it throws (part_003 lines 1582-1586) before anything is written;
otherwise both rename maps are applied. -/
def namespaceRewrite (p : Str) (d : Doc) : Except RewriteError Doc :=
  if 1 < emptyMatCount d then .error .ambiguousRename
  else .ok (d.map (applyRen (texMap p d) (matMap p d)))

/-- Observable outcome of the convert handler for one model: what the rewrite
step wrote to `nono.pbrt` (`none` = file untouched) and whether the HTTP
response reported success. -/
structure ConvertOutcome where
  written : Option Doc
  httpOk : Bool
deriving DecidableEq

/-- `GET /v1/convert/:uuid` around the rewrite step: without the `# Textures`
marker nothing is rewritten (lines 1666-1668); a rewrite error is caught at
line 1669, logged, and the flow continues (line 1671), so the handler still
marks the model converted and answers success (lines 1674-1685). -/
def convertHandler (hasMarker : Bool) (p : Str) (d : Doc) : ConvertOutcome :=
  if ¬ hasMarker then { written := none, httpOk := true }
  else match namespaceRewrite p d with
    | .error _ => { written := none, httpOk := true }
    | .ok d2 => { written := some d2, httpOk := true }

/-! ### TexturePlaceholderResolver (part_003 lines 1162-1357)

A texture file is a pair of its name and its content bytes; only the leading
bytes matter for signature sniffing.  `console.warn` reports of out-of-range
indices are returned as an explicit list. -/

abbrev Bytes := List Nat

/-- Index of the last dot of a name, if any. -/
def lastDotIdx (s : Str) : Option Nat :=
  (List.range s.length).foldl
    (fun acc i => if s.getD i ' ' = '.' then some i else acc) none

/-- `path.extname` for plain file names: the part from the final dot on,
empty when there is no dot or the only dot leads the name.  (The names
`"."` and `".."`, for which Node returns `""`, do not occur as texture
files.) -/
def extnameOf (s : Str) : Str :=
  match lastDotIdx s with
  | none => []
  | some 0 => []
  | some i => s.drop i

/-- `path.basename(file, fileExt)`: the name with the extension suffix
removed. -/
def nameWithoutExt (s : Str) : Str :=
  let e := extnameOf s
  if e = [] then s else s.take (s.length - e.length)

/-- The source reads the first 12 bytes of the file into a zero-initialised
buffer. -/
def buf12 (b : Bytes) : Bytes :=
  (b ++ List.replicate 12 0).take 12

def pngSig : Bytes := [0x89, 0x50, 0x4E, 0x47, 0x0D, 0x0A, 0x1A, 0x0A]

def jpegSig : Bytes := [0xFF, 0xD8, 0xFF]

def gif87Sig : Bytes := [0x47, 0x49, 0x46, 0x38, 0x37, 0x61]

def gif89Sig : Bytes := [0x47, 0x49, 0x46, 0x38, 0x39, 0x61]

def bmpSig : Bytes := [0x42, 0x4D]

def riffSig : Bytes := [0x52, 0x49, 0x46, 0x46]

def webpTag : Bytes := [0x57, 0x45, 0x42, 0x50]

def tiffLeSig : Bytes := [0x49, 0x49, 0x2A, 0x00]

def tiffBeSig : Bytes := [0x4D, 0x4D, 0x00, 0x2A]

/-- Signature sniffing over the 12-byte buffer, in the source's test order
(part_003 lines 1229-1244); `none` when no signature matches. -/
def sniffType (b : Bytes) : Option Str :=
  let buf := buf12 b
  if buf.take 8 = pngSig then some extPng
  else if buf.take 3 = jpegSig then some extJpg
  else if buf.take 6 = gif87Sig ∨ buf.take 6 = gif89Sig then some extGif
  else if buf.take 2 = bmpSig then some extBmp
  else if buf.take 4 = riffSig ∧ (buf.drop 8).take 4 = webpTag then some extWebp
  else if buf.take 4 = tiffLeSig ∨ buf.take 4 = tiffBeSig then some extTiff
  else none

/-- `detectAndFixImageFileExtensions`: a file that already carries a real
extension (and none of the special dot cases) is kept; otherwise a recognised
signature appends `.<type>` to the name (the file is renamed on disk), an
unrecognised one leaves the name alone (part_003 lines 1199-1266).  Returns
the updated name list in directory order. -/
def detectAndFixImageFileExtensions (files : List (Str × Bytes)) : List Str :=
  files.map fun fb =>
    let file := fb.1
    let fileExt := extnameOf file
    let special := fileExt = ['.'] ∨ (file ≠ [] ∧ file.getLast? = some '.') ∨
      nameWithoutExt file = []
    if fileExt ≠ [] ∧ ¬ special then file
    else match sniffType fb.2 with
      | some t => file ++ '.' :: t
      | none => file

/-- JavaScript default string comparison (UTF-16 code units, which for the
characters of file names is code-point order). -/
def strLeB : Str → Str → Bool
  | [], _ => true
  | _ :: _, [] => false
  | a :: as, b :: bs => if a = b then strLeB as bs else a.toNat ≤ b.toNat

def insertSorted (x : Str) : List Str → List Str
  | [] => [x]
  | y :: ys => if strLeB x y then x :: y :: ys else y :: insertSorted x ys

/-- `textureFiles.sort()` of part_003 line 1298. -/
def sortStr (l : List Str) : List Str := l.foldr insertSorted []

/-- Standard placeholder `models/[^\/]+/textures/\*(\d+)` filling the whole
filename (part_003 line 1304). -/
def parseStandard (p : Str) : Option (Str × Nat) :=
  match stripPre modelsRelPrefix p with
  | none => none
  | some r =>
    let u := r.takeWhile (fun c => c ≠ '/')
    if u = [] then none
    else match stripPre texturesStarSeg (r.drop u.length) with
      | none => none
      | some r2 =>
        if r2 ≠ [] ∧ r2.all digitChar then some (u, natOfDigits r2) else none

/-- Bare placeholder `\*(\d+)` filling the whole filename (line 1323). -/
def parseSimple (p : Str) : Option Nat :=
  match p with
  | '*' :: r => if r ≠ [] ∧ r.all digitChar then some (natOfDigits r) else none
  | _ => none

/-- Path placeholder `[^"]*\/\*(\d+)` filling the whole filename (line 1339):
any prefix, then `/*`, then trailing digits. -/
def parsePathForm (p : Str) : Option Nat :=
  let rev := p.reverse
  let dsRev := rev.takeWhile digitChar
  if dsRev = [] then none
  else match rev.drop dsRev.length with
    | '*' :: '/' :: _ => some (natOfDigits dsRev.reverse)
    | _ => none

/-- The concrete replacement path
`models/<modelId>/textures/<textureFiles[index]>`. -/
def resolvedPath (modelId : Str) (files : List Str) (n : Nat) : Str :=
  modelsRelPrefix ++ modelId ++ texturesSeg ++ files.getD n []

/-- The standard-form literal used by the third pass's duplicate guard
(`models/${modelId}/textures/*${index}`). -/
def stdPlaceholderLit (modelId : Str) (n : Nat) : Str :=
  modelsRelPrefix ++ modelId ++ texturesSeg ++ '*' :: digitsOf n

/-- Replacement of one filename parameter, following the three passes of
`replaceTextureReferences` (part_003 lines 1303-1353).  Second component:
the indices reported by `console.warn` (the third pass skips silently).  The
`quoted` value reproduces the matched text the third pass's guard inspects. -/
def resolveParam (modelId : Str) (files : List Str) (p : Str) : Str × List Nat :=
  match parseStandard p with
  | some (_, n) =>
    if n < files.length then (resolvedPath modelId files n, []) else (p, [n])
  | none =>
    match parseSimple p with
    | some n =>
      if n < files.length then (resolvedPath modelId files n, []) else (p, [n])
    | none =>
      match parsePathForm p with
      | some n =>
        let quoted := '"' :: p ++ ['"']
        if ¬ infixB (stdPlaceholderLit modelId n) quoted ∧
            ¬ infixB ('"' :: '*' :: digitsOf n ++ ['"']) quoted ∧
            n < files.length
        then (resolvedPath modelId files n, [])
        else (p, [])
      | none => (p, [])

/-- Scene text for the resolver: the filename parameters the three regexes
inspect, and everything else. -/
inductive Seg
  | filenameParam (p : Str)
  | text (s : Str)
deriving DecidableEq

abbrev SceneText := List Seg

def resolveSeg (modelId : Str) (files : List Str) : Seg → Seg × List Nat
  | .filenameParam p =>
    let r := resolveParam modelId files p
    (.filenameParam r.1, r.2)
  | .text s => (.text s, [])

/-- `replaceTextureReferences(pbrtContent, modelDir, modelId)`:
`texDir = none` models a missing `textures/` directory (content returned
unchanged, part_003 lines 1282-1285); otherwise extensions are fixed first,
an empty directory short-circuits, the names are sorted, and every filename
parameter is resolved.  Always returns a content (the operation never
fails). -/
def replaceTextureReferences (scene : SceneText) (texDir : Option (List (Str × Bytes)))
    (modelId : Str) : SceneText × List Nat :=
  match texDir with
  | none => (scene, [])
  | some entries =>
    let textureFiles := detectAndFixImageFileExtensions entries
    if textureFiles = [] then (scene, [])
    else
      let sorted := sortStr textureFiles
      (scene.map (fun s => (resolveSeg modelId sorted s).1),
        scene.flatMap (fun s => (resolveSeg modelId sorted s).2))

/-! ### TransformInjector (`POST /v1/transform`, part_003 lines 1791-1975)

The scope scan is the regex
`(#.*\n)?\s*(AttributeBegin\s*(?:[^\n]*\n)+?)(?=\s*Shape|\s*Material|\s*NamedMaterial|\s*LightSource|\s*CoordSysTransform|\s*AttributeEnd)`
run with `exec` in a loop.  The functions below reproduce the JavaScript
engine's search order exactly: greedy `\s*` takes the longest whitespace run
first and gives characters back only on failure; the lazy group takes one
`[^\n]*\n` line at a time, checking the lookahead after each; start positions
are tried left to right. -/

/-- The lookahead `(?=\s*Shape|…|\s*AttributeEnd)`. -/
def lookaheadOk (s : Str) : Bool :=
  let r := (spanWs s).2
  isPrefixB kwShape r || isPrefixB kwMaterial r || isPrefixB kwNamedMaterial r ||
    isPrefixB kwLightSource r || isPrefixB kwCoordSysTransform r || isPrefixB kwAttributeEnd r

/-- Lazy iterations of `(?:[^\n]*\n)+?` after the first: stop at the first
line boundary where the lookahead holds. -/
def lazyGo : Nat → Str → Str → Option (Str × Str)
  | 0, _, _ => none
  | fuel + 1, acc, r =>
    if lookaheadOk r then some (acc, r)
    else match splitLine r with
      | some (l, r2) => lazyGo fuel (acc ++ l) r2
      | none => none

/-- `(?:[^\n]*\n)+?(?=…)` from a given position: at least one line, then as
few further lines as possible. -/
def lazyFrom (s : Str) : Option (Str × Str) :=
  match splitLine s with
  | none => none
  | some (l, r) => lazyGo (r.length + 1) l r

/-- Greedy `\s*` before the lazy group, with backtracking: the whitespace run
`w` is split as `take k ++ drop k`, longest `k` first, until the lazy group
matches on the remainder. -/
def tryWsSplit : Nat → Str → Str → Option (Str × Str)
  | k, w, rest =>
    match lazyFrom (w.drop k ++ rest) with
    | some (lns, _) => some (w.take k, lns)
    | none => match k with
      | 0 => none
      | k2 + 1 => tryWsSplit k2 w rest

/-- `\s*AttributeBegin\s*(?:[^\n]*\n)+?(?=…)` at the head of `t`: returns the
leading whitespace and the captured block `AttributeBegin…`. -/
def matchCore (t : Str) : Option (Str × Str) :=
  let w1 := (spanWs t).1
  let t1 := (spanWs t).2
  match stripPre kwAttributeBegin t1 with
  | none => none
  | some t2 =>
    let w2 := (spanWs t2).1
    let r2 := (spanWs t2).2
    match tryWsSplit w2.length w2 r2 with
    | some (ws2, lns) => some (w1, kwAttributeBegin ++ ws2 ++ lns)
    | none => none

/-- The whole pattern at the head of `s`: optional comment line `(#.*\n)?`,
then `matchCore`.  Returns (comment line, leading whitespace, block). -/
def tryMatchHere (s : Str) : Option (Str × Str × Str) :=
  (match s with
    | '#' :: _ =>
      match splitLine s with
      | some (cl, rest) => (matchCore rest).map (fun wb => (cl, wb.1, wb.2))
      | none => none
    | _ => none) <|>
  (matchCore s).map (fun wb => (([] : Str), wb.1, wb.2))

/-- Leftmost match at a start position ≥ `i` (the `exec`/`lastIndex`
discipline). -/
def findMatchGo (orig : Str) : Nat → Nat → Option (Nat × Str × Str × Str)
  | 0, _ => none
  | fuel + 1, i =>
    if orig.length < i then none
    else match tryMatchHere (orig.drop i) with
      | some (cl, w1, block) => some (i, cl, w1, block)
      | none => findMatchGo orig fuel (i + 1)

def findMatchFrom (orig : Str) (start : Nat) : Option (Nat × Str × Str × Str) :=
  findMatchGo orig (orig.length + 1 - start) start

/-- `/\s+<cmd>\s+/.test(block)`. -/
def hasCmdIn (cmd : Str) : Str → Bool
  | [] => false
  | c :: rest =>
    (wsChar c && isPrefixB cmd rest &&
      (match rest.drop cmd.length with
        | d :: _ => wsChar d
        | [] => false)) || hasCmdIn cmd rest

/-- `block.lastIndexOf(cmd)` (no occurrence = the source's `-1`). -/
def lastOccur (pat : Str) (s : Str) : Option Nat :=
  (List.range (s.length + 1)).foldl
    (fun acc i => if isPrefixB pat (s.drop i) then some i else acc) none

/-- The last transform command in the block: iterate Translate, Rotate, Scale
keeping the largest `lastIndexOf` (part_003 lines 1881-1891). -/
def lastCmdPos (block : Str) : Option Nat :=
  [kwTranslate, kwRotate, kwScale].foldl
    (fun acc cmd =>
      match lastOccur cmd block, acc with
      | some p, some q => if q < p then some p else acc
      | some p, none => some p
      | none, _ => acc) none

/-- `block.indexOf('\n', from)`. -/
def firstNlFrom (s : Str) (start : Nat) : Option Nat :=
  (List.range s.length).foldr
    (fun i acc => if start ≤ i ∧ s.getD i ' ' = '\n' then some i else acc) none

/-- The replacement text for one matched scope (part_003 lines 1877-1913):
after the last existing transform directive when the block has one, else
appended to the matched region.  The leading whitespace of the match is not
part of the replacement. -/
def mkReplacement (cl block cmdsStr : Str) : Str :=
  if hasCmdIn kwTranslate block || hasCmdIn kwRotate block || hasCmdIn kwScale block then
    match lastCmdPos block with
    | some lastPos =>
      match firstNlFrom block lastPos with
      | some lineEnd =>
        cl ++ block.take (lineEnd + 1) ++ cmdsStr ++ '\n' :: block.drop (lineEnd + 1)
      | none => cl ++ block ++ '\n' :: cmdsStr ++ ['\n']
    | none => cl ++ block ++ cmdsStr ++ ['\n']
  else cl ++ block ++ cmdsStr ++ ['\n']

/-- The `while ((match = attributePattern.exec(pbrtContent)) !== null)` loop
(part_003 lines 1860-1920): matches are found in the original content, each
replacement is applied to the evolving copy by first-occurrence string
replacement, and `lastIndex` is advanced by the length difference.  A match
whose comment line carries `#[no-more-transformation]` is skipped. -/
def transformLoop : Nat → Str → Nat → Str → Str → Bool → Str
  | 0, _, _, modified, _, _ => modified
  | fuel + 1, orig, cursor, modified, cmdsStr, hasCmds =>
    match findMatchFrom orig cursor with
    | none => modified
    | some (i, cl, w1, block) =>
      let mEnd := i + cl.length + w1.length + block.length
      if infixB optOutMarker cl then
        transformLoop fuel orig mEnd modified cmdsStr hasCmds
      else if hasCmds then
        let full := cl ++ w1 ++ block
        let repl := mkReplacement cl block cmdsStr
        transformLoop fuel orig (mEnd + repl.length - full.length)
          (replaceFirst modified full repl) cmdsStr hasCmds
      else transformLoop fuel orig mEnd modified cmdsStr hasCmds

def joinWith (sep : Str) : List Str → Str
  | [] => []
  | [x] => x
  | x :: y :: xs => x ++ sep ++ joinWith sep (y :: xs)

/-- The transform command lines (part_003 lines 1830-1839), in the fixed
order translate, rotate, scale; each parameter list is kept as the rendered
numerals of the request. -/
def transformCommands (tr ro sc : Option (List Str)) : List Str :=
  (match tr with
    | some v => [cmdIndent ++ kwTranslate ++ ' ' :: joinWith [' '] v]
    | none => []) ++
  (match ro with
    | some v => [cmdIndent ++ kwRotate ++ ' ' :: joinWith [' '] v]
    | none => []) ++
  (match sc with
    | some v => [cmdIndent ++ kwScale ++ ' ' :: joinWith [' '] v]
    | none => [])

/-- The header comment block (part_003 lines 1845-1851): timestamp line,
parameter lines (`[x, y, z]` or `none`), and a 43-dash separator followed by
a blank line. -/
def headerComment (ts : Str) (tr ro sc : Option (List Str)) : Str :=
  hdrApplied ++ ts ++ '\n' :: hdrParamsLine ++ '\n' ::
  ((match tr with
    | some v => hdrTranslateOpen ++ joinWith commaSpace v ++ [']', '\n']
    | none => hdrTranslateNone ++ ['\n']) ++
  (match ro with
    | some v => hdrRotateOpen ++ joinWith commaSpace v ++ [']', '\n']
    | none => hdrRotateNone ++ ['\n']) ++
  (match sc with
    | some v => hdrScaleOpen ++ joinWith commaSpace v ++ [']', '\n']
    | none => hdrScaleNone ++ ['\n']) ++
  '#' :: List.replicate 43 '-' ++ ['\n', '\n'])

/-- The text produced for `momo.pbrt` (before the placeholder-resolution
step): header comment, scope-insertion loop, the
`AttributeEndAttributeBegin` line-break repair, and the final
relative-path sanitization (part_003 lines 1841-1933). -/
def transformText (ts : Str) (tr ro sc : Option (List Str)) (modelDir content : Str) : Str :=
  let cmds := transformCommands tr ro sc
  let cmdsStr := joinWith ['\n'] cmds
  let modified := transformLoop (content.length + 1) content 0 content cmdsStr (cmds ≠ [])
  let fixed := replaceAllLit (headerComment ts tr ro sc ++ modified) adjacencyLit adjacencyFix
  sanitizePbrtPaths fixed modelDir true

/-- Balanced `AttributeBegin`/`AttributeEnd` nesting: the property the spec
calls the `MalformedScope` invariant (spec section 3); the depth never drops
below zero and ends at zero. -/
def scopeGo : Nat → Str → Nat → Bool
  | 0, s, d => s = [] ∧ d = 0
  | fuel + 1, s, d =>
    match s with
    | [] => d = 0
    | _ :: rest =>
      if isPrefixB kwAttributeBegin s then scopeGo fuel (s.drop kwAttributeBegin.length) (d + 1)
      else if isPrefixB kwAttributeEnd s then
        if d = 0 then false else scopeGo fuel (s.drop kwAttributeEnd.length) (d - 1)
      else scopeGo fuel rest d

def balancedScopes (s : Str) : Bool := scopeGo (s.length + 1) s 0

/-! ### RenderCache (`POST /v1/debug/render`, part_003 lines 331-344 and
552-561)

The cache directory maps a fingerprint (the `hash` field of the request) to
the stored EXR bytes; `fs.existsSync(cachePath)` is the hit test. -/

structure CacheState where
  entries : List (Str × Bytes)
deriving DecidableEq

/-- Association lookup for byte values. -/
def lookupB : List (Str × Bytes) → Str → Option Bytes
  | [], _ => none
  | (k, v) :: r, n => if k = n then some v else lookupB r n

def cacheLookup (st : CacheState) (h : Str) : Option Bytes :=
  lookupB st.entries h

/-- Response of one render request: the bytes sent, and whether the external
renderer was invoked (`X-Cache: MISS`). -/
structure RenderResp where
  body : Bytes
  rendered : Bool
deriving DecidableEq

/-- The debug-render handler around the cache: a hit returns the stored bytes
verbatim and skips the render entirely (lines 335-344); a miss renders
(`renderOut` stands for the produced EXR bytes) and stores the result under
the fingerprint (lines 552-556). -/
def debugRender (st : CacheState) (h : Str) (renderOut : Bytes) : RenderResp × CacheState :=
  match cacheLookup st h with
  | some b => ({ body := b, rendered := false }, st)
  | none => ({ body := renderOut, rendered := true }, ⟨(h, renderOut) :: st.entries⟩)

/-! ### External tool invocations (part_003 lines 542-545 and 1451-1453) -/

/-- The options object handed to `util.promisify(childProcess.execFile)`. -/
structure ExecOptions where
  timeout : Option Nat
  cwd : Option Str
deriving DecidableEq

/-- `execFile(pbrtCommand, pbrtCommandArgs, { timeout: 60000, cwd: uploadsDir })`. -/
def pbrtRenderOptions (uploadsDir : Str) : ExecOptions :=
  { timeout := some 60000, cwd := some uploadsDir }

/-- `execFile('assimp', ['export', tempFilename, 'no', '-fpbrt', 'full'], { cwd: modelDir })`. -/
def assimpConvertOptions (modelDir : Str) : ExecOptions :=
  { timeout := none, cwd := some modelDir }

/-! ### Filesystem effects of `POST /v1/transform` (part_003 lines 1826-1958) -/

/-- Files of one model directory the transform handler touches. -/
inductive ModelFile
  | nono
  | momo
  | info
  | texture (name : Str)
deriving DecidableEq

inductive FsOp
  | read (f : ModelFile)
  | write (f : ModelFile)
  | rename (src dst : ModelFile)
deriving DecidableEq

/-- Ordered filesystem effects of a successful transform request:
read `nono.pbrt` (line 1827), write `momo.pbrt` (line 1933), rename texture
files and possibly write `momo.pbrt` again during placeholder resolution
(lines 1936-1940), and update `info.json` when it exists (lines 1943-1953).
`texRenames` are the extension-fixing renames inside `textures/`. -/
def transformHandlerOps (texRenames : List (Str × Str)) (texChanged infoExists : Bool) :
    List FsOp :=
  [.read .nono, .write .momo] ++
    (texRenames.map fun ab => .rename (.texture ab.1) (.texture ab.2)) ++
    (if texChanged then [.write .momo] else []) ++
    (if infoExists then [.read .info, .write .info] else [])

/-! ### Concrete inputs used by the claim theorems -/

def stdFormTraversal : Str := ['"', 's', 't', 'r', 'i', 'n', 'g', ' ', 'f', 'i', 'l', 'e', 'n', 'a', 'm', 'e', '"', ' ', '"', '.', '.', '/', '.', '.', '/', 'e', 't', 'c', '/', 'p', 'a', 's', 's', 'w', 'd', '"']

def tsSample : Str := ['T', 'S']

def sceneOneScope : Str := ['A', 't', 't', 'r', 'i', 'b', 'u', 't', 'e', 'B', 'e', 'g', 'i', 'n', '\n', 'S', 'h', 'a', 'p', 'e', ' ', '"', 's', 'p', 'h', 'e', 'r', 'e', '"', '\n', 'A', 't', 't', 'r', 'i', 'b', 'u', 't', 'e', 'E', 'n', 'd', '\n']

def sceneOneScopeOut : Str := ['A', 't', 't', 'r', 'i', 'b', 'u', 't', 'e', 'B', 'e', 'g', 'i', 'n', '\n', 'S', 'h', 'a', 'p', 'e', ' ', '"', 's', 'p', 'h', 'e', 'r', 'e', '"', '\n', ' ', ' ', 'T', 'r', 'a', 'n', 's', 'l', 'a', 't', 'e', ' ', '1', ' ', '0', ' ', '0', '\n', 'A', 't', 't', 'r', 'i', 'b', 'u', 't', 'e', 'E', 'n', 'd', '\n']

def sceneOneScopeClaimed : Str := ['A', 't', 't', 'r', 'i', 'b', 'u', 't', 'e', 'B', 'e', 'g', 'i', 'n', '\n', ' ', ' ', 'T', 'r', 'a', 'n', 's', 'l', 'a', 't', 'e', ' ', '1', ' ', '0', ' ', '0', '\n', 'S', 'h', 'a', 'p', 'e', ' ', '"', 's', 'p', 'h', 'e', 'r', 'e', '"', '\n', 'A', 't', 't', 'r', 'i', 'b', 'u', 't', 'e', 'E', 'n', 'd', '\n']

def sceneUnbalanced : Str := ['A', 't', 't', 'r', 'i', 'b', 'u', 't', 'e', 'E', 'n', 'd', '\n', 'A', 't', 't', 'r', 'i', 'b', 'u', 't', 'e', 'B', 'e', 'g', 'i', 'n', '\n', 'S', 'h', 'a', 'p', 'e', ' ', '"', 's', '"', '\n']

def sceneUnbalancedOut : Str := ['A', 't', 't', 'r', 'i', 'b', 'u', 't', 'e', 'E', 'n', 'd', '\n', 'A', 't', 't', 'r', 'i', 'b', 'u', 't', 'e', 'B', 'e', 'g', 'i', 'n', '\n', ' ', ' ', 'T', 'r', 'a', 'n', 's', 'l', 'a', 't', 'e', ' ', '1', ' ', '0', ' ', '0', '\n', 'S', 'h', 'a', 'p', 'e', ' ', '"', 's', '"', '\n']

def nameABin : Str := ['a', '.', 'b', 'i', 'n']

def nameBPng : Str := ['b', '.', 'p', 'n', 'g']

def nameCBin : Str := ['c', '.', 'b', 'i', 'n']

def modelM1 : Str := ['m', '1']

def phStdTwo : Str := ['m', 'o', 'd', 'e', 'l', 's', '/', 'm', '1', '/', 't', 'e', 'x', 't', 'u', 'r', 'e', 's', '/', '*', '2']

def resolvedCBin : Str := ['m', 'o', 'd', 'e', 'l', 's', '/', 'm', '1', '/', 't', 'e', 'x', 't', 'u', 'r', 'e', 's', '/', 'c', '.', 'b', 'i', 'n']

def claimedCBinPng : Str := ['m', 'o', 'd', 'e', 'l', 's', '/', 'm', '1', '/', 't', 'e', 'x', 't', 'u', 'r', 'e', 's', '/', 'c', '.', 'b', 'i', 'n', '.', 'p', 'n', 'g']

def phPathSeven : Str := ['t', 'e', 'x', 't', 'u', 'r', 'e', 's', '/', '*', '7']

def phStdSeven : Str := ['m', 'o', 'd', 'e', 'l', 's', '/', 'm', '1', '/', 't', 'e', 'x', 't', 'u', 'r', 'e', 's', '/', '*', '7']

def nameWood : Str := ['w', 'o', 'o', 'd']

def clsSpectrum : Str := ['s', 'p', 'e', 'c', 't', 'r', 'u', 'm']

def kindImagemap : Str := ['i', 'm', 'a', 'g', 'e', 'm', 'a', 'p']

def slotKd : Str := ['K', 'd']

def prefixAb : Str := ['a', 'b', '-']

def nameAbWood : Str := ['a', 'b', '-', 'w', 'o', 'o', 'd']

def nameAbNoname : Str := ['a', 'b', '-', 'n', 'o', 'n', 'a', 'm', 'e', '_', 'm', 'a', 't', 'e', 'r', 'i', 'a', 'l']

def hashOne : Str := ['h', '1']

def texOld : Str := ['t', '1']

def texNew : Str := ['t', '1', '.', 'p', 'n', 'g']

def uploadsTag : Str := ['u', 'p', 'l', 'o', 'a', 'd', 's']

def modelDirTag : Str := ['m', 'o', 'd', 'e', 'l', 'd', 'i', 'r']


def jpegHeadBytes : Bytes := [0xFF, 0xD8, 0xFF, 0, 0, 0, 0, 0, 0, 0, 0, 0]

def pngHeadBytes : Bytes := [0x89, 0x50, 0x4E, 0x47, 0x0D, 0x0A, 0x1A, 0x0A, 0, 0, 0, 0]

/-- The texture directory of the C4 scenario: `a.bin` holds JPEG bytes,
`b.png` PNG bytes, `c.bin` PNG bytes. -/
def texDirC4 : List (Str × Bytes) :=
  [(nameABin, jpegHeadBytes), (nameBPng, pngHeadBytes), (nameCBin, pngHeadBytes)]

def translateOneZeroZero : Option (List Str) := some [['1'], ['0'], ['0']]

def docOneAnon : Doc :=
  [.textureDef nameWood clsSpectrum kindImagemap,
   .materialDef [], .materialRef [],
   .textureRef slotKd nameWood]

def docOneAnonOut : Doc :=
  [.textureDef nameAbWood clsSpectrum kindImagemap,
   .materialDef nameAbNoname, .materialRef nameAbNoname,
   .textureRef slotKd nameAbWood]

def docTwoAnon : Doc := [.materialDef [], .materialDef []]

/-! ### Helper lemmas for the idempotence proof -/

lemma isPrefixB_append (p t : Str) : isPrefixB p (p ++ t) = true := by
  induction p with
  | nil => rfl
  | cons a as ih => simp [isPrefixB, ih]

lemma infixB_of_isPrefixB {p s : Str} (h : isPrefixB p s = true) : infixB p s = true := by
  cases s with
  | nil => simpa [infixB] using h
  | cons c r => simp [infixB, h]

lemma infixB_cons {p : Str} (c : Char) {s : Str} (h : infixB p s = true) :
    infixB p (c :: s) = true := by
  simp [infixB, h]

lemma infixB_append_left (s p t : Str) : infixB p (s ++ p ++ t) = true := by
  induction s with
  | nil => exact infixB_of_isPrefixB (isPrefixB_append p t)
  | cons c cs ih => simpa using infixB_cons c ih

lemma infixB_prefix (p n : Str) : infixB p (p ++ n) = true :=
  infixB_of_isPrefixB (isPrefixB_append p n)

lemma infixB_texNewName (p n : Str) : infixB p (texNewName p n) = true := by
  unfold texNewName
  by_cases h : isPrefixB rgbPrefix n = true
  · simpa [h] using infixB_append_left rgbPrefix p (n.drop 4)
  · simpa [h] using infixB_prefix p n

lemma lookupS_filterRen (names : List Str) (cond : Str → Bool) (g : Str → Str) (n : Str) :
    lookupS (names.filterMap fun m => if cond m then none else some (m, g m)) n =
      if cond n = false ∧ n ∈ names then some (g n) else none := by
  induction names with
  | nil => simp [lookupS]
  | cons m ms ih =>
    by_cases hc : cond m = true
    · by_cases hn : n = m
      · subst hn
        simp [List.filterMap_cons, hc, ih]
      · simp [List.filterMap_cons, hc, ih, List.mem_cons, hn]
    · have hcf : cond m = false := by simpa using hc
      by_cases hn : m = n
      · subst hn
        simp [List.filterMap_cons, hcf, lookupS]
      · simp [List.filterMap_cons, hcf, lookupS, hn, ih, List.mem_cons, Ne.symm hn]

lemma lookupS_append (l1 l2 : List (Str × Str)) (n : Str) :
    lookupS (l1 ++ l2) n =
      match lookupS l1 n with
      | some v => some v
      | none => lookupS l2 n := by
  induction l1 with
  | nil => simp [lookupS]
  | cons kv r ih =>
    by_cases h : kv.1 = n
    · simp [lookupS, h]
    · simp [lookupS, h, ih]

lemma renName_texMap (p : Str) (d : Doc) (n : Str) (hn : n ∈ texDefNames d) :
    infixB p (renName (texMap p d) n) = true := by
  unfold renName texMap
  rw [lookupS_filterRen]
  by_cases h : infixB p n = true
  · simp [h]
  · have hf : infixB p n = false := by simpa using h
    simp [hf, hn, infixB_texNewName]

lemma nonameMaterial_ne_nil : nonameMaterial ≠ [] := by decide

lemma renName_matMap (p : Str) (d : Doc) (n : Str) (hc : emptyMatCount d ≤ 1)
    (hn : n ∈ matDefNames d) :
    renName (matMap p d) n ≠ [] ∧ infixB p (renName (matMap p d) n) = true := by
  unfold renName matMap
  rw [lookupS_append]
  by_cases hnil : n = []
  · subst hnil
    have h1 : emptyMatCount d = 1 := by
      have hpos : 0 < emptyMatCount d := by
        unfold emptyMatCount
        rw [List.countP_pos_iff]
        exact ⟨[], hn, by simp⟩
      omega
    simp only [h1, if_pos, lookupS]
    constructor
    · simp [nonameMaterial_ne_nil]
    · simpa using infixB_prefix p nonameMaterial
  · have hpre : lookupS (if emptyMatCount d = 1 then [(([] : Str), p ++ nonameMaterial)] else []) n = none := by
      by_cases h1 : emptyMatCount d = 1
      · simp [h1, lookupS, Ne.symm hnil]
      · simp [h1, lookupS]
    rw [hpre]
    rw [lookupS_filterRen]
    by_cases h : matSkip p n = true
    · have hinf : infixB p n = true := by
        have := h
        unfold matSkip at this
        simpa [hnil] using this
      simp [h, hnil, hinf]
    · have hf : matSkip p n = false := by simpa using h
      simp only [hf, hn, and_true, if_pos, true_and, Option.getD_some]
      constructor
      · simp [hnil]
      · exact infixB_prefix p n

lemma texDefNames_map (tm mm : List (Str × Str)) (d : Doc) :
    texDefNames (d.map (applyRen tm mm)) = (texDefNames d).map (renName tm) := by
  induction d with
  | nil => rfl
  | cons x xs ih => cases x <;> simp [applyRen, texDefNames, List.filterMap_cons, ih] <;>
      simpa [texDefNames] using ih

lemma matDefNames_map (tm mm : List (Str × Str)) (d : Doc) :
    matDefNames (d.map (applyRen tm mm)) = (matDefNames d).map (renName mm) := by
  induction d with
  | nil => rfl
  | cons x xs ih => cases x <;> simp [applyRen, matDefNames, List.filterMap_cons, ih] <;>
      simpa [matDefNames] using ih

lemma applyRen_nil_nil (x : Directive) : applyRen [] [] x = x := by
  cases x <;> rfl

lemma map_applyRen_nil (d : Doc) : d.map (applyRen [] []) = d := by
  induction d with
  | nil => rfl
  | cons x xs ih => simp [applyRen_nil_nil, ih]

lemma filterMap_none_of_all {α β : Type} (f : α → Option β) (l : List α)
    (h : ∀ a ∈ l, f a = none) : l.filterMap f = [] := by
  induction l with
  | nil => rfl
  | cons x xs ih =>
    rw [List.filterMap_cons, h x (by simp)]
    exact ih fun a ha => h a (by simp [ha])

lemma emptyMatCount_rewrite (p : Str) (d : Doc) (hc : emptyMatCount d ≤ 1) :
    emptyMatCount (d.map (applyRen (texMap p d) (matMap p d))) = 0 := by
  unfold emptyMatCount
  rw [matDefNames_map]
  rw [List.countP_eq_zero]
  intro n hn
  rw [List.mem_map] at hn
  obtain ⟨m, hm, rfl⟩ := hn
  have := (renName_matMap p d m hc hm).1
  simpa using this

lemma texMap_eq_nil_of_all (p : Str) (d : Doc)
    (h : ∀ n ∈ texDefNames d, infixB p n = true) : texMap p d = [] := by
  unfold texMap
  apply filterMap_none_of_all
  intro n hn
  simp [h n hn]

lemma texMap_rewrite_nil (p : Str) (d : Doc) :
    texMap p (d.map (applyRen (texMap p d) (matMap p d))) = [] := by
  apply texMap_eq_nil_of_all
  intro n hn
  rw [texDefNames_map, List.mem_map] at hn
  obtain ⟨m, hm, rfl⟩ := hn
  exact renName_texMap p d m hm

lemma matMap_eq_nil_of (p : Str) (d : Doc) (h0 : emptyMatCount d ≠ 1)
    (h : ∀ n ∈ matDefNames d, matSkip p n = true) : matMap p d = [] := by
  unfold matMap
  rw [if_neg h0, List.nil_append]
  apply filterMap_none_of_all
  intro n hn
  simp [h n hn]

lemma matMap_rewrite_nil (p : Str) (d : Doc) (hc : emptyMatCount d ≤ 1) :
    matMap p (d.map (applyRen (texMap p d) (matMap p d))) = [] := by
  apply matMap_eq_nil_of
  · rw [emptyMatCount_rewrite p d hc]
    omega
  · intro n hn
    rw [matDefNames_map, List.mem_map] at hn
    obtain ⟨m, hm, rfl⟩ := hn
    have h2 := (renName_matMap p d m hc hm).2
    simp [matSkip, h2]

def hdrTranslateLine100 : Str := ['#', ' ', '-', ' ', 'T', 'r', 'a', 'n', 's', 'l', 'a', 't', 'e', ':', ' ', '[', '1', ',', ' ', '0', ',', ' ', '0', ']']

def phSimpleSeven : Str := ['*', '7']

/-! ### Claim theorems -/

/-- C1: the spec claims `hasSuspiciousPbrtPaths` rejects suspicious paths
occurring inside the standard `"string filename" "<path>"` parameter form.
The source's patterns all require the bare token `"filename"`, which never
occurs in that form, so a parent-directory traversal written in the standard
form is not detected and the debug-render handler proceeds instead of
rejecting the input. -/
theorem c1_standard_form_not_detected :
    hasSuspiciousPbrtPaths stdFormTraversal = false ∧
    debugRenderCheck stdFormTraversal = RenderDecision.proceed := by
  constructor <;> rfl

/-- C2 counterexample: for a scene with two anonymous material definitions the
rewrite step does throw, but the handler's `catch (fileError)` block swallows
the error and the request is still answered with the success message — the
error is not returned to the caller, contradicting the claim. -/
theorem c2_counterexample :
    namespaceRewrite prefixAb docTwoAnon = .error .ambiguousRename ∧
    convertHandler true prefixAb docTwoAnon = { written := none, httpOk := true } := by
  constructor <;> rfl

/-- C2 amended: for every scene (behind the `# Textures` marker) with two or
more anonymous material definitions, the rewrite step fails with
`AmbiguousRename` and writes nothing — the original text stays byte-for-byte
unchanged — but the handler catches the error and still reports success. -/
theorem c2_amended (p : Str) (d : Doc) (h : 2 ≤ emptyMatCount d) :
    namespaceRewrite p d = .error .ambiguousRename ∧
    (convertHandler true p d).written = none ∧
    (convertHandler true p d).httpOk = true := by
  have h1 : 1 < emptyMatCount d := h
  refine ⟨?_, ?_, ?_⟩
  · simp [namespaceRewrite, h1]
  · simp [convertHandler, namespaceRewrite, h1]
  · simp [convertHandler, namespaceRewrite, h1]

/-- Witness for `c2_amended` at a concrete two-anonymous-materials scene. -/
theorem c2_amended_witness :
    2 ≤ emptyMatCount docTwoAnon ∧
    (namespaceRewrite prefixAb docTwoAnon = .error .ambiguousRename ∧
     (convertHandler true prefixAb docTwoAnon).written = none ∧
     (convertHandler true prefixAb docTwoAnon).httpOk = true) :=
  ⟨by decide, c2_amended prefixAb docTwoAnon (by decide)⟩

/-- C3: the namespace rewrite is idempotent — whenever it succeeds, running
it again on its output succeeds and changes nothing, because every renamed
identifier carries the prefix and is therefore excluded from both rename
maps on the second run. -/
theorem c3_rewrite_idempotent (p : Str) (d d2 : Doc)
    (h : namespaceRewrite p d = .ok d2) : namespaceRewrite p d2 = .ok d2 := by
  unfold namespaceRewrite at h
  by_cases hc : 1 < emptyMatCount d
  · rw [if_pos hc] at h
    exact absurd h (by simp)
  · rw [if_neg hc] at h
    have hc1 : emptyMatCount d ≤ 1 := Nat.not_lt.mp hc
    have hd2 : d2 = d.map (applyRen (texMap p d) (matMap p d)) := by
      injection h with h2
      exact h2.symm
    subst hd2
    unfold namespaceRewrite
    rw [if_neg (by rw [emptyMatCount_rewrite p d hc1]; omega)]
    rw [texMap_rewrite_nil p d, matMap_rewrite_nil p d hc1, map_applyRen_nil]

/-- Witness for `c3_rewrite_idempotent`: one texture, one anonymous material
and their references, with the prefix `ab-`. -/
theorem c3_rewrite_idempotent_witness :
    namespaceRewrite prefixAb docOneAnon = .ok docOneAnonOut ∧
    namespaceRewrite prefixAb docOneAnonOut = .ok docOneAnonOut :=
  ⟨by rfl, c3_rewrite_idempotent prefixAb docOneAnon docOneAnonOut (by rfl)⟩

/-- C4 counterexample: in the claimed scenario the files are named `a.bin`,
`b.png`, `c.bin` — but `.bin` is an extension, so the extension-fixing pass
skips all three files (it only sniffs files without one); the enumeration is
`[a.bin, b.png, c.bin]` and `*2` resolves to `c.bin`, not `c.bin.png`. -/
theorem c4_counterexample :
    detectAndFixImageFileExtensions texDirC4 = [nameABin, nameBPng, nameCBin] ∧
    (replaceTextureReferences [Seg.filenameParam phStdTwo] (some texDirC4) modelM1).1 =
      [Seg.filenameParam resolvedCBin] ∧
    resolvedCBin ≠ claimedCBinPng := by
  refine ⟨by rfl, by rfl, by decide⟩

/-- C4 amended: for the directory `[a.bin, b.png, c.bin]` with JPEG, PNG and
PNG leading bytes, no file is renamed (each already has an extension), the
deterministic enumeration is `[a.bin (0), b.png (1), c.bin (2)]`, and `*2`
resolves to `c.bin`; signature sniffing renames only extension-less files,
e.g. the same bytes under the names `a` and `c` become `a.jpg` and
`c.png`. -/
theorem c4_amended :
    replaceTextureReferences [Seg.filenameParam phStdTwo] (some texDirC4) modelM1 =
      ([Seg.filenameParam resolvedCBin], []) ∧
    sortStr (detectAndFixImageFileExtensions texDirC4) = [nameABin, nameBPng, nameCBin] ∧
    detectAndFixImageFileExtensions [(['a'], jpegHeadBytes), (['c'], pngHeadBytes)] =
      [['a', '.', 'j', 'p', 'g'], ['c', '.', 'p', 'n', 'g']] := by
  refine ⟨by rfl, by rfl, by rfl⟩

/-- C5 counterexample: for the one-scope scene the regex's greedy `\s*`
consumes the newline after `AttributeBegin`, forcing the lazy group to
consume the `Shape` line as well, so `  Translate 1 0 0` is inserted after
the `Shape` line — the produced block is not the claimed one with the
translate directly after the scope open. -/
theorem c5_counterexample :
    transformText tsSample translateOneZeroZero none none [] sceneOneScope =
      headerComment tsSample translateOneZeroZero none none ++ sceneOneScopeOut ∧
    transformText tsSample translateOneZeroZero none none [] sceneOneScope ≠
      headerComment tsSample translateOneZeroZero none none ++ sceneOneScopeClaimed := by
  refine ⟨by rfl, by decide⟩

/-- C5 amended: the transform run prepends the header comment recording
`Translate: [1, 0, 0]` and `Rotate`/`Scale` as `none`, and produces the block
`AttributeBegin`, original `Shape` line, `  Translate 1 0 0`,
`AttributeEnd` — the command lands after the `Shape` line (at the end of the
matched region), not immediately after the scope open. -/
theorem c5_amended :
    transformText tsSample translateOneZeroZero none none [] sceneOneScope =
      headerComment tsSample translateOneZeroZero none none ++ sceneOneScopeOut ∧
    infixB hdrTranslateLine100 (headerComment tsSample translateOneZeroZero none none) = true ∧
    infixB hdrRotateNone (headerComment tsSample translateOneZeroZero none none) = true ∧
    infixB hdrScaleNone (headerComment tsSample translateOneZeroZero none none) = true := by
  refine ⟨by rfl, by decide, by decide, by decide⟩

/-- C6 counterexample: an out-of-range placeholder in the arbitrary-prefix
path form (`textures/*7` against a single texture file) is left untouched but
produces no report — the third pass of `replaceTextureReferences` skips
silently, contradicting the claim that every out-of-range placeholder is
reported. -/
theorem c6_counterexample :
    parsePathForm phPathSeven = some 7 ∧
    resolveParam modelM1 [nameBPng] phPathSeven = (phPathSeven, []) := by
  constructor <;> rfl

/-- C6 amended: out-of-range placeholders never change the text and never
fail the operation; the standard and bare forms are reported, the
arbitrary-prefix path form is skipped silently; a missing texture directory
leaves the whole text unchanged; in-range standard placeholders are still
replaced by the concrete path. -/
theorem c6_amended (modelId : Str) (files : List Str) (p u : Str) (n : Nat)
    (scene : SceneText) :
    (replaceTextureReferences scene none modelId = (scene, [])) ∧
    (parseStandard p = some (u, n) → files.length ≤ n →
      resolveParam modelId files p = (p, [n])) ∧
    (parseStandard p = none → parseSimple p = some n → files.length ≤ n →
      resolveParam modelId files p = (p, [n])) ∧
    (parseStandard p = none → parseSimple p = none → parsePathForm p = some n →
      files.length ≤ n → resolveParam modelId files p = (p, [])) ∧
    (parseStandard p = some (u, n) → n < files.length →
      resolveParam modelId files p = (resolvedPath modelId files n, [])) := by
  refine ⟨rfl, ?_, ?_, ?_, ?_⟩
  · intro hp hn
    simp [resolveParam, hp, Nat.not_lt.mpr hn]
  · intro hp hs hn
    simp [resolveParam, hp, hs, Nat.not_lt.mpr hn]
  · intro hp hs hf hn
    simp only [resolveParam, hp, hs, hf]
    rw [if_neg]
    intro hcond
    exact absurd hcond.2.2 (Nat.not_lt.mpr hn)
  · intro hp hn
    simp [resolveParam, hp, hn]

/-- Witness for `c6_amended`, one concrete instance per conjunct. -/
theorem c6_amended_witness :
    (replaceTextureReferences [Seg.text kwShape] none modelM1 = ([Seg.text kwShape], [])) ∧
    resolveParam modelM1 [nameBPng] phStdSeven = (phStdSeven, [7]) ∧
    resolveParam modelM1 [nameBPng] phSimpleSeven = (phSimpleSeven, [7]) ∧
    resolveParam modelM1 [nameBPng] phPathSeven = (phPathSeven, []) ∧
    resolveParam modelM1 [nameABin, nameBPng, nameCBin] phStdTwo =
      (resolvedPath modelM1 [nameABin, nameBPng, nameCBin] 2, []) :=
  ⟨(c6_amended modelM1 [nameBPng] phStdSeven modelM1 7 [Seg.text kwShape]).1,
   (c6_amended modelM1 [nameBPng] phStdSeven modelM1 7 []).2.1 (by rfl) (by decide),
   (c6_amended modelM1 [nameBPng] phSimpleSeven modelM1 7 []).2.2.1 (by rfl) (by rfl) (by decide),
   (c6_amended modelM1 [nameBPng] phPathSeven modelM1 7 []).2.2.2.1 (by rfl) (by rfl) (by rfl) (by decide),
   (c6_amended modelM1 [nameABin, nameBPng, nameCBin] phStdTwo modelM1 2 []).2.2.2.2 (by rfl) (by decide)⟩

/-- C7: a render request whose fingerprint has a cache entry is answered with
exactly the stored bytes and without invoking the renderer; consequently,
after any first submission of a fingerprint, a second submission with the
same fingerprint returns the first render's bytes without a second render. -/
theorem c7_cache_hit_no_render :
    (∀ (st : CacheState) (h : Str) (b renderOut : Bytes),
      cacheLookup st h = some b →
        debugRender st h renderOut = ({ body := b, rendered := false }, st)) ∧
    (∀ (st : CacheState) (h : Str) (r1 r2 : Bytes),
      cacheLookup st h = none →
        (debugRender (debugRender st h r1).2 h r2).1 = { body := r1, rendered := false }) := by
  constructor
  · intro st h b renderOut hl
    simp [debugRender, hl]
  · intro st h r1 r2 hl
    have hl2 : lookupB st.entries h = none := hl
    simp [debugRender, cacheLookup, hl2, lookupB]

/-- Witness for `c7_cache_hit_no_render`: a hit on a one-entry cache, and a
miss followed by a hit from the empty cache. -/
theorem c7_cache_hit_no_render_witness :
    debugRender ⟨[(hashOne, [1, 2])]⟩ hashOne [3] =
      ({ body := [1, 2], rendered := false }, ⟨[(hashOne, [1, 2])]⟩) ∧
    (debugRender (debugRender ⟨[]⟩ hashOne [7]).2 hashOne [9]).1 =
      { body := [7], rendered := false } :=
  ⟨c7_cache_hit_no_render.1 ⟨[(hashOne, [1, 2])]⟩ hashOne [1, 2] [3] (by rfl),
   c7_cache_hit_no_render.2 ⟨[]⟩ hashOne [7] [9] (by rfl)⟩

/-- C8 counterexample: the transform pipeline contains no scope-balance
check.  For a scene with an unmatched leading `AttributeEnd` and an
unclosed trailing scope, the rewrite is not aborted: output is produced and
the translate command was inserted. -/
theorem c8_counterexample :
    balancedScopes sceneUnbalanced = false ∧
    transformText tsSample translateOneZeroZero none none [] sceneUnbalanced =
      headerComment tsSample translateOneZeroZero none none ++ sceneUnbalancedOut ∧
    infixB (cmdIndent ++ kwTranslate) sceneUnbalancedOut = true := by
  refine ⟨by rfl, by rfl, by decide⟩

/-- C8 amended: unbalanced scope delimiters are not treated as an error: the
rewrite runs normally, the unmatched delimiters stay in place (the output is
still unbalanced), and the only scope-related fixup is the textual
`AttributeEndAttributeBegin` line-break repair. -/
theorem c8_amended :
    balancedScopes sceneUnbalanced = false ∧
    balancedScopes
      (transformText tsSample translateOneZeroZero none none [] sceneUnbalanced) = false ∧
    infixB kwAttributeEnd
      (transformText tsSample translateOneZeroZero none none [] sceneUnbalanced) = true := by
  refine ⟨by rfl, by rfl, by decide⟩

/-- C9 counterexample: the converter (assimp) invocation of
`GET /v1/convert/:uuid` passes only `cwd` in its options — it has no timeout,
so the claim that every external tool invocation is bounded by a timeout is
false. -/
theorem c9_counterexample : (assimpConvertOptions modelDirTag).timeout = none := rfl

/-- C9 amended: the renderer (pbrt) invocation is bounded by a 60-second
timeout, but the converter (assimp) invocation has no timeout at all. -/
theorem c9_amended :
    (pbrtRenderOptions uploadsTag).timeout = some 60000 ∧
    (assimpConvertOptions modelDirTag).timeout = none := by
  constructor <;> rfl

/-- C10: on the success path of `POST /v1/transform`, `nono.pbrt` is never
written or renamed: the only `writeFileSync` targets are `momo.pbrt` and
`info.json`, and the only renames touch files of the `textures/`
directory. -/
theorem c10_nono_never_written (texRenames : List (Str × Str)) (texChanged infoExists : Bool) :
    FsOp.write ModelFile.nono ∉ transformHandlerOps texRenames texChanged infoExists ∧
    (∀ f, FsOp.write f ∈ transformHandlerOps texRenames texChanged infoExists →
      f = ModelFile.momo ∨ f = ModelFile.info) ∧
    (∀ a b, FsOp.rename a b ∈ transformHandlerOps texRenames texChanged infoExists →
      a ≠ ModelFile.nono ∧ b ≠ ModelFile.nono) := by
  refine ⟨?_, ?_, ?_⟩
  · cases texChanged <;> cases infoExists <;>
      simp [transformHandlerOps, List.mem_append, List.mem_map]
  · intro f hf
    cases texChanged <;> cases infoExists <;>
      simp [transformHandlerOps, List.mem_append, List.mem_map] at hf <;>
      rcases hf with h | h | h <;> simp_all
  · intro a b hab
    cases texChanged <;> cases infoExists <;>
      (simp [transformHandlerOps, List.mem_append, List.mem_map] at hab
       obtain ⟨x, y, hmem, h1, h2⟩ := hab
       subst h1
       subst h2
       exact ⟨by simp, by simp⟩)

/-- Witness for `c10_nono_never_written` at a concrete effect trace. -/
theorem c10_nono_never_written_witness :
    FsOp.write ModelFile.nono ∉ transformHandlerOps [(texOld, texNew)] true true ∧
    (ModelFile.momo = ModelFile.momo ∨ ModelFile.momo = ModelFile.info) ∧
    (ModelFile.texture texOld ≠ ModelFile.nono ∧ ModelFile.texture texNew ≠ ModelFile.nono) :=
  ⟨(c10_nono_never_written [(texOld, texNew)] true true).1,
   (c10_nono_never_written [(texOld, texNew)] true true).2.1 ModelFile.momo (by decide),
   (c10_nono_never_written [(texOld, texNew)] true true).2.2
     (ModelFile.texture texOld) (ModelFile.texture texNew) (by decide)⟩
